import Mathlib

/-!
Verification of the pymx2 Modbus-RTU master driver (Omron MX2 inverter).

This file shallow-embeds the parts of the driver needed to settle the frozen
claims: the CRC-16-Modbus checksum (`mx2/__init__.py`, `crc16`), the
addressable-entity model (`mx2/enums.py`: `Coil`, `Register` and the
`MonitoringFunctions` register namespace), the value-container operator
semantics relevant to `read_fault_monitor` (`mx2/types.py`, `RegisterValue`),
and the request/response engine (`mx2/__init__.py`, class `MX2`).

Machine integers are modelled as `Nat` (Python ints are unbounded; byte
strings are lists of naturals below 256).  Fallible code returns
`Except Err`.  The mutable engine object is modelled by explicit state
passing: each public operation takes the engine state, the wall-clock time
`t` at which a frame would be written (Python's `time()` inside `_send`) and
the byte string `resp` buffered on the serial port at read time, and returns
the Python result (or raised exception), the new engine state, and a record
of the I/O effects that occurred (frames written, whether the quiet-period
sleep ran, whether a read was attempted).
-/

set_option maxRecDepth 100000
set_option maxHeartbeats 2000000

namespace MX2

/-! ## Frame codec: CRC-16-Modbus (`crc16` in `mx2/__init__.py`) -/

/-- One bit-iteration of the CRC loop: `crc = (crc >> 1) ^ 0xA001` when the
low bit is set, else `crc = crc >> 1`. -/
def crcRound (c : Nat) : Nat :=
  if c % 2 == 1 then (c / 2) ^^^ 0xA001 else c / 2

/-- Iterate `crcRound` a given number of times (the `for i in range(8)` loop). -/
def crcRounds : Nat → Nat → Nat
  | 0, c => c
  | n + 1, c => crcRounds n (crcRound c)

/-- Process one input byte: `crc ^= b` followed by 8 bit-iterations. -/
def crcByte (c b : Nat) : Nat := crcRounds 8 (c ^^^ b)

/-- The 16-bit CRC accumulator after processing a byte string, starting from
the initial value `0xffff`. -/
def crcWord (data : List Nat) : Nat := data.foldl crcByte 0xffff

/-- Python `crc16(data)`: the accumulator rendered as two bytes, little-endian
(`crc.to_bytes(2, "little")`). -/
def crc16 (data : List Nat) : List Nat := [crcWord data % 256, crcWord data / 256]

/-! ## Addressable entity model (`mx2/enums.py`) -/

/-- Index of the first occurrence of an element in a list (Python
`list.index`; all uses look up elements that are present). -/
def listIndexOf {α : Type} [BEq α] : List α → α → Nat
  | [], _ => 0
  | y :: ys, x => if y == x then 0 else listIndexOf ys x + 1

/-- Coil declaration table, part 1. -/
def coilDecl1 : List Nat := [
  0x01,  -- OperationCommand
  0x02,  -- RotationDirectionCommand
  0x03,  -- ExternalTrip
  0x04,  -- TripReset
  0x07,  -- IntelligentInput1
  0x08,  -- IntelligentInput2
  0x09,  -- IntelligentInput3
  0x0A,  -- IntelligentInput4
  0x0B,  -- IntelligentInput5
  0x0C,  -- IntelligentInput6
  0x0D,  -- IntelligentInput7
  0x0F,  -- OperationStatus
  0x10,  -- RotationDirectionStatus
  0x11,  -- InverterReady
  0x13,  -- Running
  0x14,  -- ConstantSpeedReached
  0x15  -- SetFrequencyOverreached
]

/-- Coil declaration table, part 2. -/
def coilDecl2 : List Nat := [
  0x16,  -- Overload
  0x17,  -- OutputDeviation
  0x18,  -- Alarm
  0x19,  -- SetFrequencyReached
  0x1A,  -- OverTorque
  0x1C,  -- UnderVoltage
  0x1D,  -- TorqueLimited
  0x1E,  -- OperationTimeOver
  0x1F,  -- PlugInTimeOver
  0x20,  -- ThermalAlarm
  0x26,  -- BrakeRelease
  0x27,  -- BrakeError
  0x28,  -- ZeroHzDetection
  0x29,  -- SpeedDeviationMaximum
  0x2A,  -- PositioningCompleted
  0x2B,  -- SetFrequencyOverreached2
  0x2C  -- SetFrequencyReached2
]

/-- Coil declaration table, part 3. -/
def coilDecl3 : List Nat := [
  0x2D,  -- Overload2
  0x2E,  -- AnalogVoltageIODisconnected
  0x2F,  -- AnalogCurrentIODisconnected
  0x32,  -- PIDFeedbackComparison
  0x33,  -- CommunicationTrainDisconnection
  0x34,  -- LogicalOperationResult1
  0x35,  -- LogicalOperationResult2
  0x36,  -- LogicalOperationResult3
  0x3A,  -- CapacitorLifeWarning
  0x3B,  -- CoolingFanSpeedDrop
  0x3C,  -- StartingContactSignal
  0x3D,  -- HeatSinkOverheatWarning
  0x3E,  -- LowCurrentIndicator
  0x3F,  -- GeneralOutput1
  0x40,  -- GeneralOutput2
  0x41,  -- GeneralOutput3
  0x45  -- InverterReadyOutput
]

/-- Coil declaration table, part 4. -/
def coilDecl4 : List Nat := [
  0x46,  -- ForwardRotation
  0x47,  -- ReverseRotation
  0x48,  -- MajorFailure
  0x49,  -- DataWritingInProgress
  0x4A,  -- CRCError
  0x4B,  -- Overrun
  0x4C,  -- FramingError
  0x4D,  -- ParityError
  0x4E,  -- SumCheckError
  0x50,  -- WindowComparatorVoltage
  0x51,  -- WindowComparatorCurrent
  0x53,  -- OptionDisconnection
  0x54,  -- FrequencyCommandSource
  0x55,  -- RunCommandSource
  0x56,  -- SecondMotorSelected
  0x58  -- GateSuppressMonitor
]

/-- Declared Coil members by raw address, in declaration order (the enum has no aliases). -/
def coilDecl : List Nat := coilDecl1 ++ coilDecl2 ++ coilDecl3 ++ coilDecl4


/-- Position of a coil in the declaration list (Python
`self._member_names_.index(self.name)`). -/
def coilIndex (c : Nat) : Nat := listIndexOf coilDecl c

/-- Python `Coil.next(n_items)`: for `n_items == 0` return `[self]`, else the
slice of the member list from the position after `self` up to
`min(len, pos + 1 + n_items)`.  The source also raises `ValueError` for
negative counts, which cannot arise for a `Nat` argument. -/
def coilNext (c : Nat) (n : Nat) : List Nat :=
  if n == 0 then [c]
  else (coilDecl.drop (coilIndex c + 1)).take n

/-- Python `Coil.contains(value)`: true when some declared coil has the given
raw address. -/
def coilContains (v : Nat) : Bool := coilDecl.contains v

/-- A register descriptor: raw word address and word width, as stored by
`Register.__init__` (`self.address`, `self.n_words`). -/
structure Reg where
  address : Nat
  nWords : Nat
  deriving DecidableEq, Repr

/-- Position of a register in its namespace declaration list. -/
def regIndex (ns : List Reg) (r : Reg) : Nat := listIndexOf ns r

/-- Python `Register.next(n_items)` over a namespace declaration list, same
slicing as `coilNext`. -/
def regNext (ns : List Reg) (r : Reg) (n : Nat) : List Reg :=
  if n == 0 then [r]
  else (ns.drop (regIndex ns r + 1)).take n

/-- Python `Register.contains(cls, value)`: the first declared register of
the namespace whose raw address equals `value`, if any. -/
def regContains (ns : List Reg) (v : Nat) : Option Reg :=
  ns.find? (fun r => r.address == v)

/-- Python `Register.__eq__` against another register: true when both the raw
address and the word width match. -/
def regEq (a b : Reg) : Bool := b.address == a.address && b.nWords == a.nWords

/-- Python `Register.__eq__` against a plain integer: true when the integer
equals the raw address. -/
def regEqInt (a : Reg) (n : Nat) : Bool := n == a.address

/-- Python `Register.__add__(int)`: scan `self.next(other)` for a declared
register at `self.address + other`; return it if found, else return the plain
integer `self.address + other`. -/
def regAdd (ns : List Reg) (r : Reg) (k : Nat) : Sum Reg Nat :=
  match (regNext ns r k).find? (fun c => c.address == r.address + k) with
  | some c => Sum.inl c
  | Option.none => Sum.inr (r.address + k)

/-- MonitoringFunctions declaration table, part 1. -/
def monitoringDecl1 : List Reg := [
  ⟨0x1001, 2⟩,  -- OutputFrequency
  ⟨0x1003, 1⟩,  -- OutputCurrent
  ⟨0x1004, 1⟩,  -- RotationDirection
  ⟨0x1005, 2⟩,  -- PIDFeedbackValue
  ⟨0x1007, 1⟩,  -- MultiFunctionInputs
  ⟨0x1008, 1⟩,  -- MultiFunctionOutputs
  ⟨0x1009, 2⟩,  -- ConvertedOutputFrequency
  ⟨0x100B, 2⟩,  -- RealFrequency
  ⟨0x100D, 1⟩,  -- TorqueReference
  ⟨0x100E, 1⟩,  -- TorqueBias
  ⟨0x1010, 1⟩,  -- OutputTorque
  ⟨0x1011, 1⟩,  -- OutputVoltage
  ⟨0x1012, 1⟩,  -- InputPower
  ⟨0x1013, 2⟩,  -- WattHour
  ⟨0x1015, 2⟩,  -- TotalRunTime
  ⟨0x1017, 2⟩,  -- PowerOnTime
  ⟨0x1019, 1⟩,  -- FinTemperature
  ⟨0x101D, 1⟩,  -- LifeAssessment
  ⟨0x101E, 1⟩,  -- ProgramCounter
  ⟨0x101F, 1⟩  -- ProgramNumber
]

/-- MonitoringFunctions declaration table, part 2. -/
def monitoringDecl2 : List Reg := [
  ⟨0x102E, 2⟩,  -- DriveProgramming0
  ⟨0x1030, 2⟩,  -- DriveProgramming1
  ⟨0x1032, 2⟩,  -- DriveProgramming2
  ⟨0x1036, 2⟩,  -- PositionCommand
  ⟨0x1038, 2⟩,  -- CurrentPosition
  ⟨0x1057, 1⟩,  -- InverterMode
  ⟨0x1059, 1⟩,  -- FrequencySource
  ⟨0x105A, 1⟩,  -- RunSource
  ⟨0x0011, 1⟩,  -- FaultFrequencyMonitor
  ⟨0x0012, 1⟩,  -- FaultMonitor1
  ⟨0x0013, 1⟩,  -- FaultMonitor1InverterStatus
  ⟨0x0014, 2⟩,  -- FaultMonitor1Frequency
  ⟨0x0016, 1⟩,  -- FaultMonitor1Current
  ⟨0x0017, 1⟩,  -- FaultMonitor1Voltage
  ⟨0x0018, 2⟩,  -- FaultMonitor1RunningTime
  ⟨0x001A, 2⟩,  -- FaultMonitor1PowerOnTime
  ⟨0x001C, 1⟩,  -- FaultMonitor2
  ⟨0x001D, 1⟩,  -- FaultMonitor2InverterStatus
  ⟨0x001E, 2⟩,  -- FaultMonitor2Frequency
  ⟨0x0020, 1⟩  -- FaultMonitor2Current
]

/-- MonitoringFunctions declaration table, part 3. -/
def monitoringDecl3 : List Reg := [
  ⟨0x0021, 1⟩,  -- FaultMonitor2Voltage
  ⟨0x0022, 2⟩,  -- FaultMonitor2RunningTime
  ⟨0x0024, 2⟩,  -- FaultMonitor2PowerOnTime
  ⟨0x0026, 1⟩,  -- FaultMonitor3
  ⟨0x0027, 1⟩,  -- FaultMonitor3InverterStatus
  ⟨0x0028, 2⟩,  -- FaultMonitor3Frequency
  ⟨0x002A, 1⟩,  -- FaultMonitor3Current
  ⟨0x002B, 1⟩,  -- FaultMonitor3Voltage
  ⟨0x002C, 2⟩,  -- FaultMonitor3RunningTime
  ⟨0x002E, 2⟩,  -- FaultMonitor3PowerOnTime
  ⟨0x0030, 1⟩,  -- FaultMonitor4
  ⟨0x0031, 1⟩,  -- FaultMonitor4InverterStatus
  ⟨0x0032, 2⟩,  -- FaultMonitor4Frequency
  ⟨0x0034, 1⟩,  -- FaultMonitor4Current
  ⟨0x0035, 1⟩,  -- FaultMonitor4Voltage
  ⟨0x0036, 2⟩,  -- FaultMonitor4RunningTime
  ⟨0x0038, 2⟩,  -- FaultMonitor4PowerOnTime
  ⟨0x003A, 1⟩,  -- FaultMonitor5
  ⟨0x003B, 1⟩,  -- FaultMonitor5InverterStatus
  ⟨0x003C, 2⟩  -- FaultMonitor5Frequency
]

/-- MonitoringFunctions declaration table, part 4. -/
def monitoringDecl4 : List Reg := [
  ⟨0x003E, 1⟩,  -- FaultMonitor5Current
  ⟨0x003F, 1⟩,  -- FaultMonitor5Voltage
  ⟨0x0040, 2⟩,  -- FaultMonitor5RunningTime
  ⟨0x0042, 2⟩,  -- FaultMonitor5PowerOnTime
  ⟨0x0044, 1⟩,  -- FaultMonitor6
  ⟨0x0045, 1⟩,  -- FaultMonitor6InverterStatus
  ⟨0x0046, 2⟩,  -- FaultMonitor6Frequency
  ⟨0x0048, 1⟩,  -- FaultMonitor6Current
  ⟨0x0049, 1⟩,  -- FaultMonitor6Voltage
  ⟨0x004A, 2⟩,  -- FaultMonitor6RunningTime
  ⟨0x004C, 2⟩,  -- FaultMonitor6PowerOnTime
  ⟨0x004E, 1⟩,  -- WarningMonitor
  ⟨0x1026, 1⟩,  -- DCVoltage
  ⟨0x1027, 1⟩,  -- RegenerativeBrakingLoadRate
  ⟨0x1028, 1⟩,  -- ElectronicThermalMonitor
  ⟨0x10A1, 1⟩,  -- AnalogInputO
  ⟨0x10A2, 1⟩,  -- AnalogInputOI
  ⟨0x10A4, 1⟩,  -- PulseTrainInput
  ⟨0x10A6, 1⟩,  -- PIDDeviation
  ⟨0x10A8, 1⟩  -- PIDOutput
]

/-- Declared canonical members of the `MonitoringFunctions` (D-group)
register namespace, in declaration order.  Python enum aliases (the `Dxxx`
short names and the `FaultMonitorNFactor` names, whose values repeat an
earlier member's value) collapse onto the first declaration and are not
separate members of `_member_names_`. -/
def monitoringDecl : List Reg := monitoringDecl1 ++ monitoringDecl2 ++ monitoringDecl3 ++ monitoringDecl4


/-- The six fault-monitor bank base registers, in the exact order of the
list literal inside `read_fault_monitor` (`MonitoringFunctions.FaultMonitor1`
through `FaultMonitor6`). -/
def faultMonitorBanks : List Reg :=
  [⟨0x0012, 1⟩, ⟨0x001C, 1⟩, ⟨0x0026, 1⟩, ⟨0x0030, 1⟩, ⟨0x003A, 1⟩, ⟨0x0044, 1⟩]

/-! ## Value containers (`mx2/types.py`): the operator semantics relevant to
`read_fault_monitor`.  A `RegisterValue` is a `(register, value)` pair; Python
dynamic dispatch between plain `int` and `RegisterValue` operands is modelled
by `PyVal`. -/

/-- A Python value that is either a plain `int` or a `RegisterValue`. -/
inductive PyVal where
  | int : Nat → PyVal
  | regval : Reg → Nat → PyVal
  deriving DecidableEq, Repr

/-- Python `<<` between the modelled values.  `RegisterValue.__lshift__`
returns a plain `int` (`self.value << amount`).  For `int << RegisterValue`,
`int.__lshift__` returns `NotImplemented` and `RegisterValue` defines no
`__rlshift__`, so Python raises `TypeError`. -/
def pyLshift : PyVal → PyVal → Except Unit PyVal
  | .int a, .int n => .ok (.int (a <<< n))
  | .regval _ v, .int n => .ok (.int (v <<< n))
  | .regval _ v, .regval _ w => .ok (.int (v <<< w))
  | .int _, .regval _ _ => .error ()

/-- Python `+` between the modelled values.  `RegisterValue.__add__` accepts
`int` and `RegisterValue` and returns a plain `int`.  For
`int + RegisterValue`, `int.__add__` returns `NotImplemented` and
`RegisterValue` defines no `__radd__`, so Python raises `TypeError`. -/
def pyAdd : PyVal → PyVal → Except Unit PyVal
  | .int a, .int b => .ok (.int (a + b))
  | .regval _ v, .int b => .ok (.int (v + b))
  | .regval _ v, .regval _ w => .ok (.int (v + w))
  | .int _, .regval _ _ => .error ()

/-! ## Request/response engine (`mx2/__init__.py`, class `MX2`) -/

/-- Exceptions raised by the driver (`mx2/exceptions.py`), plus the Python
built-in exceptions that the source can raise (`IndexError` from out-of-range
list indexing, `TypeError` from unsupported operand types, `ValueError` from
`bytes()` on out-of-range byte values). -/
inductive Err where
  | badParameter          -- BadParameterException
  | badRequest            -- BadRequestException
  | serialErr             -- SerialException
  | noResponse            -- NoResponseException
  | badResponseLength     -- BadResponseLengthException
  | badResponse           -- BadResponseException
  | crcErr                -- CRCException
  | functionNotSupported  -- FunctionNotSupportedException
  | functionNotFound      -- FunctionNotFoundException
  | functionNotAvailable  -- FunctionNotAvailableException
  | outOfBounds           -- OutOfBoundsException
  | invalidDataFormat     -- InvalidDataFormatException
  | readOnlyTarget        -- ReadOnlyTargetException
  | unknownDeviceError    -- MX2Exception("Unknown exception.")
  | indexErr              -- Python IndexError
  | typeErr               -- Python TypeError
  | attrErr               -- Python AttributeError
  | valueErr              -- Python ValueError
  deriving DecidableEq, Repr

/-- The mutable fields of an `MX2` engine object together with the serial
settings it owns through its `RS485` instance.  `waitTime` and `lastReqTime`
are real-valued seconds, modelled as rationals; `serParity` is an opaque code
for the parity string. -/
structure EngineState where
  devId : Nat
  latencyTime : Nat
  waitTime : ℚ
  lastReqTime : ℚ
  serOpen : Bool
  serBaud : Nat
  serParity : Nat
  serStopBits : Nat
  deriving DecidableEq, Repr

/-- The observable I/O of one operation: the frames written to the serial
port, whether the quiet-period sleep (`_wait`) ran, and whether a read
(`_read`) was attempted. -/
structure Effects where
  sent : List (List Nat)
  waited : Bool
  didRead : Bool
  deriving DecidableEq, Repr

/-- No I/O performed. -/
def Effects.empty : Effects := ⟨[], false, false⟩

/-- Effects of an exchange that wrote one frame, slept, and attempted a
read. -/
def Effects.exchange (frame : List Nat) : Effects := ⟨[frame], true, true⟩

/-- The frame written by `MX2._send`: device id, function code, payload,
then the CRC of that concatenation. -/
def sendFrame (devId fc : Nat) (data : List Nat) : List Nat :=
  [devId, fc] ++ data ++ crc16 ([devId, fc] ++ data)

deriving instance DecidableEq for Except

/-- Result triple of an operation: Python return value or raised exception,
the engine state afterwards, and the I/O effects. -/
abbrev OpResult (α : Type) : Type := Except Err α × EngineState × Effects

/-- State component of an operation result. -/
def stateOf {α : Type} (r : OpResult α) : EngineState := r.2.1

/-- Effects component of an operation result. -/
def effectsOf {α : Type} (r : OpResult α) : Effects := r.2.2

/-- Feed the decoded value of one operation result through a pure
continuation, keeping state and effects (models Python code that
post-processes the list returned by an inner call, where any exception
raised by the post-processing propagates). -/
def andThen {α β : Type} (r : OpResult α) (k : α → Except Err β) : OpResult β :=
  match r with
  | (.error e, s1, eff) => (.error e, s1, eff)
  | (.ok v, s1, eff) => (k v, s1, eff)

/-- Python `MX2._read`, given the bytes buffered on the port: raises if the
port is closed, returns `None` when zero bytes are waiting, else the bytes. -/
def readStep (s : EngineState) (resp : List Nat) : Except Err (Option (List Nat)) :=
  if s.serOpen = false then .error .serialErr
  else if resp.length == 0 then .ok Option.none
  else .ok (some resp)

/-- Python `MX2.__check_validity(command, data)`: `None` data raises
`NoResponseException`; then the device id byte, the CRC over the whole
response, and the function-code byte are checked in that order, with
`command + 0x80` replies dispatched on the exception byte. -/
def checkValidity (devId fc : Nat) (data : Option (List Nat)) : Except Err Unit :=
  match data with
  | Option.none => .error .noResponse
  | some d =>
    match d[0]? with
    | Option.none => .error .indexErr
    | some b0 =>
      if b0 ≠ devId then .error .badResponse
      else if crc16 d ≠ [0, 0] then .error .crcErr
      else
        match d[1]? with
        | Option.none => .error .indexErr
        | some b1 =>
          if b1 ≠ fc then
            if b1 = fc + 0x80 then
              match d[2]? with
              | Option.none => .error .indexErr
              | some b2 =>
                if b2 = 0x01 then .error .functionNotSupported
                else if b2 = 0x02 then .error .functionNotFound
                else if b2 = 0x22 then .error .functionNotAvailable
                else if b2 = 0x21 then .error .outOfBounds
                else if b2 = 0x03 then .error .invalidDataFormat
                else if b2 = 0x23 then .error .readOnlyTarget
                else .error .unknownDeviceError
            else .error .badResponse
          else .ok ()

/-- Bits of one payload byte, least-significant bit first (Python
`"{:08b}".format(v)[::-1]`; payload bytes are below 256, giving 8 bits). -/
def byteBitsLSB (v : Nat) : List Bool :=
  (List.range 8).map (fun i => v.testBit i)

/-- The flat boolean sequence decoded by `read_coil_status`: Python iterates
`response[3 + response[2] - 1 : 2 : -1]`, i.e. the payload slice
`response[3 : 3 + response[2]]` in reverse (the negative-stride slice clamps
at the end of the byte string exactly as `take` does), and concatenates the
LSB-first bits of each byte. -/
def coilBits (resp : List Nat) (byteCount : Nat) : List Bool :=
  ((((resp.drop 3).take byteCount).reverse).map byteBitsLSB).flatten

/-- The pairing loop of `read_coil_status`: walk the decoded bits, pairing
each with the current declared coil, then step to `addr.next()[0]` — which
raises `IndexError` when `next()` returns the empty list (the source's
`if addr is None` guard never fires, since `next()` yields coil members,
never `None`) — and stop once the requested count is collected. -/
def coilPairLoop (count : Nat) : List Bool → Nat → List (Nat × Bool) →
    Except Err (List (Nat × Bool))
  | [], _, values => .ok values
  | r :: rest, addr, values =>
    if coilContains addr then
      let values' := values ++ [(addr, r)]
      match (coilNext addr 1).head? with
      | Option.none => .error .indexErr
      | some addr' =>
        if values'.length = count then .ok values'
        else coilPairLoop count rest addr' values'
    else coilPairLoop count rest addr values

/-- Common tail of the read operations after the frame is written
(`_wait`; `response = _read()`; `__check_validity`; length check; decode).
`s'` is the engine state after `_send` (timestamp updated), `frame` the
frame that was written, `expectLen` the function-specific expected response
length, and `decode` the function-specific payload decoding. -/
def readExchange {α : Type} (s' : EngineState) (resp frame : List Nat)
    (devId fc expectLen : Nat) (decode : List Nat → Except Err α) : OpResult α :=
  match readStep s' resp with
  | .error e => (.error e, s', ⟨[frame], true, true⟩)
  | .ok data =>
    match checkValidity devId fc data with
    | .error e => (.error e, s', ⟨[frame], true, true⟩)
    | .ok _ =>
      if resp.length ≠ expectLen then (.error .badResponseLength, s', ⟨[frame], true, true⟩)
      else
        match decode resp with
        | .error e => (.error e, s', ⟨[frame], true, true⟩)
        | .ok v => (.ok v, s', ⟨[frame], true, true⟩)

/-- Common tail of the write operations and the loopback test after the
frame is written (`_wait`; `_read`; `__check_validity`; 8-byte length check;
comparison of `response[2:6]` against the echoed request bytes). -/
def echoExchange (s' : EngineState) (resp frame : List Nat)
    (devId fc : Nat) (echo : List Nat) : OpResult Unit :=
  match readStep s' resp with
  | .error e => (.error e, s', ⟨[frame], true, true⟩)
  | .ok data =>
    match checkValidity devId fc data with
    | .error e => (.error e, s', ⟨[frame], true, true⟩)
    | .ok _ =>
      if resp.length ≠ 8 then (.error .badResponseLength, s', ⟨[frame], true, true⟩)
      else if (resp.drop 2).take 4 ≠ echo then (.error .badResponse, s', ⟨[frame], true, true⟩)
      else (.ok (), s', ⟨[frame], true, true⟩)

/-- The repeated source expression
`last_reg.address - start_address.address + last_reg.n_words`: the word span
of a register batch, signed because declaration order is not address-sorted
in every namespace. -/
def spanOf (start last : Reg) : Int :=
  (last.address : Int) - (start.address : Int) + (last.nWords : Int)

/-- Python `MX2.read_coil_status(start_address, coil_count)`. -/
def read_coil_status (s : EngineState) (t : ℚ) (resp : List Nat)
    (start count : Nat) : OpResult (List (Nat × Bool)) :=
  if s.devId > 249 then (.error .badRequest, s, Effects.empty)
  else if start < 1 ∨ start > 0x58 then (.error .badParameter, s, Effects.empty)
  else if count ≤ 0 ∨ count > 31 then (.error .badParameter, s, Effects.empty)
  else if s.serOpen = false then (.error .serialErr, s, Effects.empty)
  else
    readExchange { s with lastReqTime := t } resp
      (sendFrame s.devId 0x01 [0, start - 1, 0, count]) s.devId 0x01 (6 + count / 8)
      (fun d => coilPairLoop count (coilBits d (d.getD 2 0)) start [])

/-- Big-endian word assembly of `__format_register_values`:
`(data[n] << 8) + data[n+1]` for consecutive byte pairs.  (All engine call
sites pass an even number of bytes, so the odd-tail `IndexError` of the
Python comprehension cannot occur there.) -/
def toWords : List Nat → List Nat
  | b1 :: b2 :: rest => (b1 * 256 + b2) :: toWords rest
  | _ => []

/-- Accumulation loop of `__format_register_values`: feed each word into the
register currently being filled (width `nb` words remaining, accumulator
`acc`); emit a `(register, value)` pair when the width quota fills, then step
to `addr.next()[0]`, where the source catches `IndexError` and stops. -/
def formatLoop (ns : List Reg) : List Nat → Reg → Nat → Nat →
    List (Reg × Nat) → List (Reg × Nat)
  | [], _, _, _, values => values
  | v :: rest, addr, nb, acc, values =>
    if (regContains ns addr.address).isSome then
      let nb' := nb - 1
      let acc' := acc + v * 2 ^ (16 * nb')
      if nb' = 0 then
        let values' := values ++ [(addr, acc')]
        match (regNext ns addr 1).head? with
        | Option.none => values'
        | some addr' => formatLoop ns rest addr' addr'.nWords 0 values'
      else formatLoop ns rest addr nb' acc' values
    else formatLoop ns rest addr nb acc values

/-- Python `MX2.__format_register_values(start_address, data)`. -/
def formatRegisterValues (ns : List Reg) (start : Reg) (data : List Nat) :
    List (Reg × Nat) :=
  formatLoop ns (toWords data) start start.nWords 0 []

/-- Python `MX2.read_registers(start_address, register_count)` with a
`Register` start address.  `bytes()` would raise `ValueError` for a span
outside `0..255`.  When the span exceeds 16 the source constructs
`BadParameterException(...)` but omits the `raise`
(contrast `write_in_multiple_registers`), so execution continues and the
frame is sent. -/
def read_registers (ns : List Reg) (s : EngineState) (t : ℚ) (resp : List Nat)
    (start : Reg) (count : Nat) : OpResult (List (Reg × Nat)) :=
  if s.devId > 249 then (.error .badRequest, s, Effects.empty)
  else if start.address < 1 ∨ start.address > 0xffff then (.error .badParameter, s, Effects.empty)
  else if count < 1 ∨ count > 16 then (.error .badParameter, s, Effects.empty)
  else
    match (regNext ns start (count - 1)).getLast? with
    | Option.none => (.error .indexErr, s, Effects.empty)
    | some last =>
      if spanOf start last < 0 ∨ spanOf start last > 255 then (.error .valueErr, s, Effects.empty)
      else if s.serOpen = false then (.error .serialErr, s, Effects.empty)
      else
        readExchange { s with lastReqTime := t } resp
          (sendFrame s.devId 0x03 [(start.address - 1) / 256, (start.address - 1) % 256,
            0, (spanOf start last).toNat])
          s.devId 0x03 (5 + (spanOf start last).toNat * 2)
          (fun d => .ok (formatRegisterValues ns start
            ((d.drop 3).take ((spanOf start last).toNat * 2))))

/-- Python `MX2.read_registers` with a plain-integer start address
(`isinstance(start_address, Register)` false, so `word_count` is the request
count).  After a validated response, `__format_register_values` dereferences
`addr.n_words` on the integer and raises `AttributeError`. -/
def read_registers_intstart (s : EngineState) (t : ℚ) (resp : List Nat)
    (start : Nat) (count : Nat) : OpResult (List (Reg × Nat)) :=
  if s.devId > 249 then (.error .badRequest, s, Effects.empty)
  else if start < 1 ∨ start > 0xffff then (.error .badParameter, s, Effects.empty)
  else if count < 1 ∨ count > 16 then (.error .badParameter, s, Effects.empty)
  else if s.serOpen = false then (.error .serialErr, s, Effects.empty)
  else
    readExchange { s with lastReqTime := t } resp
      (sendFrame s.devId 0x03 [(start - 1) / 256, (start - 1) % 256, 0, count])
      s.devId 0x03 (5 + count * 2)
      (fun _ => .error .attrErr)

/-- Request payload of `write_in_coil`:
`[0, address - 1, 0xff if state else 0, 0]`. -/
def writeCoilMsg (addr : Nat) (state : Bool) : List Nat :=
  [0, addr - 1, if state then 0xff else 0, 0]

/-- Python `MX2.write_in_coil(address, state)`.  A broadcast device id
returns immediately after the frame is written, skipping `_wait` and
`_read`. -/
def write_in_coil (s : EngineState) (t : ℚ) (resp : List Nat)
    (addr : Nat) (state : Bool) : OpResult Unit :=
  if addr < 1 ∨ addr > 0x58 then (.error .badParameter, s, Effects.empty)
  else if s.serOpen = false then (.error .serialErr, s, Effects.empty)
  else if s.devId > 249 then
    (.ok (), { s with lastReqTime := t },
     ⟨[sendFrame s.devId 0x05 (writeCoilMsg addr state)], false, false⟩)
  else
    echoExchange { s with lastReqTime := t } resp
      (sendFrame s.devId 0x05 (writeCoilMsg addr state)) s.devId 0x05 (writeCoilMsg addr state)

/-- Big-endian byte rendering of `int.to_bytes(n_bytes, 'big')` (all call
sites range-check the value first). -/
def natToBytesBE (v : Nat) (nbytes : Nat) : List Nat :=
  (List.range nbytes).map (fun i => v / 2 ^ (8 * (nbytes - 1 - i)) % 256)

/-- Loop body of `__prepare_for_writing` over the zipped
`(register, value)` pairs (Python `zip` truncates to the shorter list):
range-check each value against its register's width, then serialize
big-endian over `2 * n_words` bytes. -/
def prepLoop : List (Reg × Nat) → Except Err (List Nat)
  | [] => .ok []
  | (r, v) :: rest =>
    if v ≥ 2 ^ (16 * r.nWords) then .error .badParameter
    else
      match prepLoop rest with
      | .error e => .error e
      | .ok m => .ok (natToBytesBE v (2 * r.nWords) ++ m)

/-- Python `MX2.__prepare_for_writing(start_address, values)` with a
`Register` start address: pairs `[start] + start.next(len(values))` with the
values. -/
def prepareForWriting (ns : List Reg) (start : Reg) (values : List Nat) :
    Except Err (List Nat) :=
  prepLoop ((start :: regNext ns start values.length).zip values)

/-- Request payload header of `write_in_multiple_registers`:
`[startHi, startLo, 0, word_count, 2 * word_count]`. -/
def multiRegsHeader (start : Reg) (wordCount : Nat) : List Nat :=
  [(start.address - 1) / 256, (start.address - 1) % 256, 0, wordCount, 2 * wordCount]

/-- Python `MX2.write_in_multiple_registers(start_address, values)` with a
`Register` start address.  Unlike `read_registers`, the span check here does
raise; a negative span would then fail in `bytes()` with `ValueError`. -/
def write_in_multiple_registers (ns : List Reg) (s : EngineState) (t : ℚ)
    (resp : List Nat) (start : Reg) (values : List Nat) : OpResult Unit :=
  if start.address < 1 ∨ start.address > 0xffff then (.error .badParameter, s, Effects.empty)
  else if values.length = 0 ∨ values.length > 16 then (.error .badParameter, s, Effects.empty)
  else
    match (regNext ns start (values.length - 1)).getLast? with
    | Option.none => (.error .indexErr, s, Effects.empty)
    | some last =>
      if spanOf start last > 16 then (.error .badParameter, s, Effects.empty)
      else if spanOf start last < 0 then (.error .valueErr, s, Effects.empty)
      else
        match prepareForWriting ns start values with
        | .error e => (.error e, s, Effects.empty)
        | .ok body =>
          if s.serOpen = false then (.error .serialErr, s, Effects.empty)
          else if s.devId > 249 then
            (.ok (), { s with lastReqTime := t },
             ⟨[sendFrame s.devId 0x10 (multiRegsHeader start (spanOf start last).toNat ++ body)],
              false, false⟩)
          else
            echoExchange { s with lastReqTime := t } resp
              (sendFrame s.devId 0x10 (multiRegsHeader start (spanOf start last).toNat ++ body))
              s.devId 0x10
              ((multiRegsHeader start (spanOf start last).toNat ++ body).take 4)

/-- Request payload of `write_in_register`:
`[addrHi, addrLo, valueHi, valueLo]`. -/
def writeRegMsg (addr : Reg) (value : Nat) : List Nat :=
  [(addr.address - 1) / 256, (addr.address - 1) % 256, value / 256, value % 256]

/-- Python `MX2.write_in_register(address, value)` with a `Register`
address: a multi-word register delegates to
`write_in_multiple_registers(address, [value])` before the 16-bit value
check. -/
def write_in_register (ns : List Reg) (s : EngineState) (t : ℚ)
    (resp : List Nat) (addr : Reg) (value : Nat) : OpResult Unit :=
  if addr.address < 1 ∨ addr.address > 0xffff then (.error .badParameter, s, Effects.empty)
  else if addr.nWords > 1 then write_in_multiple_registers ns s t resp addr [value]
  else if value > 0xffff then (.error .badParameter, s, Effects.empty)
  else if s.serOpen = false then (.error .serialErr, s, Effects.empty)
  else if s.devId > 249 then
    (.ok (), { s with lastReqTime := t },
     ⟨[sendFrame s.devId 0x06 (writeRegMsg addr value)], false, false⟩)
  else
    echoExchange { s with lastReqTime := t } resp
      (sendFrame s.devId 0x06 (writeRegMsg addr value)) s.devId 0x06 (writeRegMsg addr value)

/-- MSB-first bit packing of `write_in_multiple_coils`:
`sum((1 if values[n] else 0) << (len(values) - n - 1) for n in range(len))`. -/
def coilsIntval (values : List Bool) : Nat :=
  (List.range values.length).foldl
    (fun acc n => acc + (if values.getD n false then 2 ^ (values.length - n - 1) else 0)) 0

/-- Request payload of `write_in_multiple_coils`:
`[0, start - 1, 0, len(values), nbytes]` followed by the packed bit bytes,
`nbytes = min(4, len(values) // 8 + 1)`. -/
def multiCoilsMsg (start : Nat) (values : List Bool) : List Nat :=
  [0, start - 1, 0, values.length, min 4 (values.length / 8 + 1)] ++
    (List.range (min 4 (values.length / 8 + 1))).map
      (fun n => coilsIntval values >>> (8 * (min 4 (values.length / 8 + 1) - n - 1)) % 256)

/-- Python `MX2.write_in_multiple_coils(start_address, values)`. -/
def write_in_multiple_coils (s : EngineState) (t : ℚ) (resp : List Nat)
    (start : Nat) (values : List Bool) : OpResult Unit :=
  if start < 1 ∨ start > 0x58 then (.error .badParameter, s, Effects.empty)
  else if values.length = 0 ∨ values.length > 31 then (.error .badParameter, s, Effects.empty)
  else if s.serOpen = false then (.error .serialErr, s, Effects.empty)
  else if s.devId > 249 then
    (.ok (), { s with lastReqTime := t },
     ⟨[sendFrame s.devId 0x0F (multiCoilsMsg start values)], false, false⟩)
  else
    echoExchange { s with lastReqTime := t } resp
      (sendFrame s.devId 0x0F (multiCoilsMsg start values)) s.devId 0x0F
      ((multiCoilsMsg start values).take 4)

/-- Request payload of `loopback_test` for a wall-clock millisecond count:
`[0, 0, valueHi, valueLo]` with `value = tms & 0xffff`. -/
def loopbackMsg (tms : Nat) : List Nat :=
  [0, 0, tms % 65536 / 256, tms % 65536 % 256]

/-- Python `MX2.loopback_test()`.  The echoed 16-bit value is derived from
the wall clock (`int(time() * 1000) & 0xffff`); the milliseconds value is an
input `tms` here. -/
def loopback_test (s : EngineState) (t : ℚ) (resp : List Nat)
    (tms : Nat) : OpResult Unit :=
  if s.devId > 249 then (.error .badRequest, s, Effects.empty)
  else if s.serOpen = false then (.error .serialErr, s, Effects.empty)
  else
    echoExchange { s with lastReqTime := t } resp
      (sendFrame s.devId 0x08 (loopbackMsg tms)) s.devId 0x08 (loopbackMsg tms)

/-- Request payload header of `read_and_write_registers`:
`[rStartHi, rStartLo, 0, read_word_count, wStartHi, wStartLo, 0,
write_word_count, 2 * write_word_count]`. -/
def rwHeader (readStart writeStart : Reg) (rwc wwc : Nat) : List Nat :=
  [(readStart.address - 1) / 256, (readStart.address - 1) % 256, 0, rwc,
   (writeStart.address - 1) / 256, (writeStart.address - 1) % 256, 0, wwc, 2 * wwc]

/-- Python `MX2.read_and_write_registers(read_start, write_start, read_count,
write_values)` with `Register` start addresses.  The read-side span check
constructs `BadParameterException` without raising (same omission as
`read_registers`); the write-side span check raises. -/
def read_and_write_registers (ns : List Reg) (s : EngineState) (t : ℚ)
    (resp : List Nat) (readStart writeStart : Reg) (readCount : Nat)
    (writeValues : List Nat) : OpResult (List (Reg × Nat)) :=
  if s.devId > 249 then (.error .badRequest, s, Effects.empty)
  else if readStart.address < 1 ∨ readStart.address > 0xffff then
    (.error .badParameter, s, Effects.empty)
  else if writeStart.address < 1 ∨ writeStart.address > 0xffff then
    (.error .badParameter, s, Effects.empty)
  else if readCount < 1 ∨ readCount > 16 then (.error .badParameter, s, Effects.empty)
  else if writeValues.length = 0 ∨ writeValues.length > 16 then
    (.error .badParameter, s, Effects.empty)
  else if writeValues.any (fun v => v > 0xffff) then (.error .badParameter, s, Effects.empty)
  else
    match (regNext ns readStart (readCount - 1)).getLast? with
    | Option.none => (.error .indexErr, s, Effects.empty)
    | some rlast =>
      match (regNext ns writeStart (writeValues.length - 1)).getLast? with
      | Option.none => (.error .indexErr, s, Effects.empty)
      | some wlast =>
        if spanOf writeStart wlast > 16 then (.error .badParameter, s, Effects.empty)
        else if spanOf readStart rlast < 0 ∨ spanOf readStart rlast > 255 ∨
            spanOf writeStart wlast < 0 then (.error .valueErr, s, Effects.empty)
        else
          match prepareForWriting ns writeStart writeValues with
          | .error e => (.error e, s, Effects.empty)
          | .ok body =>
            if s.serOpen = false then (.error .serialErr, s, Effects.empty)
            else
              readExchange { s with lastReqTime := t } resp
                (sendFrame s.devId 0x17
                  (rwHeader readStart writeStart (spanOf readStart rlast).toNat
                    (spanOf writeStart wlast).toNat ++ body))
                s.devId 0x17 (5 + (spanOf readStart rlast).toNat * 2)
                (fun d => .ok (formatRegisterValues ns readStart
                  ((d.drop 3).take ((spanOf readStart rlast).toNat * 2))))

/-- Python `MX2.read_fault_monitor(index, value)`.  The six-entry bank list
is indexed directly with the 1-based `index` (Python `IndexError` at 6); the
resulting address is `bank + value` via `Register.__add__`.  Time/frequency
fields read two words and combine them as `(result[0] << 16) + result[1]`;
other fields return `result[0]` (a `RegisterValue` object). -/
def read_fault_monitor (s : EngineState) (t : ℚ) (resp : List Nat)
    (index value : Nat) : OpResult PyVal :=
  if index < 1 ∨ index > 6 then (.error .badParameter, s, Effects.empty)
  else if value > 9 then (.error .badParameter, s, Effects.empty)
  else
    match faultMonitorBanks[index]? with
    | Option.none => (.error .indexErr, s, Effects.empty)
    | some bank =>
      match regAdd monitoringDecl bank value with
      | Sum.inr rawAddr =>
        -- plain-integer address (offsets 3, 7 and 9 land between declared
        -- registers): decoding inside read_registers raises AttributeError
        -- after the exchange
        if value = 2 ∨ value = 6 ∨ value = 8 then
          andThen (read_registers_intstart s t resp rawAddr 2) (fun _ => .error .attrErr)
        else
          andThen (read_registers_intstart s t resp rawAddr 1) (fun _ => .error .attrErr)
      | Sum.inl reg =>
        if value = 2 ∨ value = 6 ∨ value = 8 then
          -- FaultMonitorData.Frequency, RunningTime, PowerOnTime:
          -- return (result[0] << 16) + result[1]
          andThen (read_registers monitoringDecl s t resp reg 2) (fun vals =>
            match vals[0]?, vals[1]? with
            | some rv0, some rv1 =>
              match pyLshift (PyVal.regval rv0.1 rv0.2) (PyVal.int 16) with
              | .error _ => .error .typeErr
              | .ok x =>
                match pyAdd x (PyVal.regval rv1.1 rv1.2) with
                | .error _ => .error .typeErr
                | .ok y => .ok y
            | _, _ => .error .indexErr)
        else
          -- return result[0]
          andThen (read_registers monitoringDecl s t resp reg 1) (fun vals =>
            match vals[0]? with
            | some rv0 => .ok (PyVal.regval rv0.1 rv0.2)
            | Option.none => .error .indexErr)

/-- Specification-side predicate for the engine-state footprint of one
operation: either no frame was written and the state is untouched, or a
frame was written and the only modified field is the last-request timestamp,
set to the send time `t`. -/
def SendTimestamped {α : Type} (s : EngineState) (t : ℚ) (r : OpResult α) : Prop :=
  ((effectsOf r).sent = [] ∧ stateOf r = s) ∨
  ((effectsOf r).sent ≠ [] ∧ stateOf r = { s with lastReqTime := t })

/-- Transport of `SendTimestamped` along a change of the result value only
(state and effects components unchanged). -/
theorem SendTimestamped.remap {α β : Type} {s : EngineState} {t : ℚ} {r : OpResult α}
    (h : SendTimestamped s t r) (x : Except Err β) :
    SendTimestamped s t (x, r.2.1, r.2.2) := h

/-- Transport of `SendTimestamped` through `andThen`. -/
theorem SendTimestamped.andThenEvo {α β : Type} {s : EngineState} {t : ℚ}
    {r : OpResult α} (h : SendTimestamped s t r) (k : α → Except Err β) :
    SendTimestamped s t (andThen r k) := by
  unfold MX2.andThen
  split
  all_goals first
    | exact h
    | exact SendTimestamped.remap h _

/-! ## Theorems -/

/-- Sanity check against the repository's own test suite and the datasheet
example (tests/modbus.py, `test_send_ok`): the embedded CRC reproduces the
reference checksum bytes. -/
theorem crc16_datasheet_vector : crc16 [8, 1, 0, 6, 0, 5] = [0x1C, 0x91] := by decide

/-- Sanity check against tests/inverter.py, `test_read_coil_status_ok`:
decoding the reference response pairs the five requested bits with the first
five declared coils. -/
theorem read_coil_status_test_vector :
    (read_coil_status ⟨8, 30, 0, 0, true, 9600, 0, 1⟩ 1 [8, 1, 1, 5, 0x92, 0x17] 1 5).1 =
      .ok [(1, true), (2, false), (3, true), (4, false), (7, false)] := by decide

/-- One CRC bit-round keeps the accumulator below 2^16. -/
theorem crcRound_lt (c : Nat) (h : c < 2 ^ 16) : crcRound c < 2 ^ 16 := by
  unfold crcRound
  split
  · exact Nat.xor_lt_two_pow (by omega) (by norm_num)
  · omega

/-- Iterated CRC bit-rounds keep the accumulator below 2^16. -/
theorem crcRounds_lt (n c : Nat) (h : c < 2 ^ 16) : crcRounds n c < 2 ^ 16 := by
  induction n generalizing c with
  | zero => exact h
  | succ k ih => exact ih _ (crcRound_lt c h)

/-- Processing a byte keeps the accumulator below 2^16. -/
theorem crcByte_lt (c b : Nat) (hc : c < 2 ^ 16) (hb : b < 256) :
    crcByte c b < 2 ^ 16 :=
  crcRounds_lt 8 _ (Nat.xor_lt_two_pow hc (by omega))

/-- The CRC accumulator over a byte string stays below 2^16. -/
theorem crcWord_lt (data : List Nat) (h : ∀ b ∈ data, b < 256) :
    crcWord data < 2 ^ 16 := by
  unfold crcWord
  have aux : ∀ (l : List Nat) (c : Nat), (∀ b ∈ l, b < 256) → c < 2 ^ 16 →
      l.foldl crcByte c < 2 ^ 16 := by
    intro l
    induction l with
    | nil => intro c _ hc; simpa using hc
    | cons x xs ih =>
      intro c hl hc
      simp only [List.foldl_cons]
      exact ih _ (fun b hb => hl b (List.mem_cons_of_mem _ hb))
        (crcByte_lt c x hc (hl x (List.mem_cons_self _ _)))
  exact aux data 0xffff h (by norm_num)

/-- Eight rounds starting from a value with eight clear low bits shift the
value down by eight bits with no polynomial injection (checked over all 256
high bytes). -/
theorem crcRounds_eight_mul (q : Nat) (h : q < 256) : crcRounds 8 (q * 256) = q := by
  revert q h
  decide

/-- XORing a value with its own low byte clears the low byte and keeps the
high bits. -/
theorem xor_mod_256 (c : Nat) : c ^^^ c % 256 = c / 256 * 256 := by
  apply Nat.eq_of_testBit_eq
  intro i
  have h256 : (256 : Nat) = 2 ^ 8 := by norm_num
  rw [h256, Nat.testBit_xor, Nat.testBit_mod_two_pow, Nat.mul_comm,
    Nat.testBit_mul_pow_two]
  rcases Nat.lt_or_ge i 8 with hi | hi
  · have h1 : decide (i < 8) = true := by simpa using hi
    have h2 : decide (i ≥ 8) = false := by simpa using hi
    rw [h1, h2]
    simp
  · have h1 : decide (i < 8) = false := by simpa using hi
    have h2 : decide (i ≥ 8) = true := by simpa using hi
    rw [h1, h2]
    have hd : c / 2 ^ 8 = c >>> 8 := (Nat.shiftRight_eq_div_pow c 8).symm
    rw [hd, Nat.testBit_shiftRight]
    have he : 8 + (i - 8) = i := by omega
    rw [he]
    simp

/-- C8: for every byte string `d`, appending `crc16 d` to `d` yields a frame
over which the recomputed CRC-16 (reflected polynomial 0xA001, initial value
0xFFFF, LSB-first, little-endian output) is the two zero bytes. -/
theorem C8_crc_append_zero (d : List Nat) (h : ∀ b ∈ d, b < 256) :
    crc16 (d ++ crc16 d) = [0, 0] := by
  have hc : crcWord d < 2 ^ 16 := crcWord_lt d h
  have hq : crcWord d / 256 < 256 := by omega
  have step1 : crcByte (crcWord d) (crcWord d % 256) = crcWord d / 256 := by
    unfold crcByte
    rw [xor_mod_256]
    exact crcRounds_eight_mul _ hq
  have step2 : crcByte (crcWord d / 256) (crcWord d / 256) = 0 := by
    unfold crcByte
    rw [Nat.xor_self]
    decide
  have hfold : crcWord (d ++ [crcWord d % 256, crcWord d / 256]) = 0 := by
    unfold crcWord
    rw [List.foldl_append]
    simp only [List.foldl_cons, List.foldl_nil]
    unfold crcWord at step1 step2
    rw [step1, step2]
  show [crcWord (d ++ [crcWord d % 256, crcWord d / 256]) % 256,
        crcWord (d ++ [crcWord d % 256, crcWord d / 256]) / 256] = [0, 0]
  rw [hfold]

/-- C8 witness: the datasheet request payload is made of bytes and satisfies
the round-trip-to-zero property. -/
theorem C8_witness :
    (∀ b ∈ [8, 1, 0, 6, 0, 5], b < 256) ∧
      crc16 ([8, 1, 0, 6, 0, 5] ++ crc16 [8, 1, 0, 6, 0, 5]) = [0, 0] :=
  ⟨by decide, C8_crc_append_zero [8, 1, 0, 6, 0, 5] (by decide)⟩

/-- C3 counterexample: `next` does not fail when fewer entities remain — at
the last declared coil it silently returns the empty list; for `n = 0` it
returns `[self]` rather than no entities; and in the `MonitoringFunctions`
namespace the entity following `RunSource` (0x105A) is
`FaultFrequencyMonitor` (0x0011), so the returned order is declaration
order, not ascending declared-address order. -/
theorem C3_counterexample :
    coilNext 0x58 1 = [] ∧
    coilNext 0x01 0 = [0x01] ∧
    regNext monitoringDecl ⟨0x105A, 1⟩ 1 = [⟨0x0011, 1⟩] ∧
    0x0011 < 0x105A := by
  refine ⟨by decide, by decide, by decide, by decide⟩

/-- C3 (amended): `next(e, 0)` returns `[e]`; for `n ≥ 1`, `next(e, n)`
returns the next `min n remaining` declared entities of the namespace in
declaration order — the slice of the declaration list after `e`, truncated
silently (no failure) when fewer than `n` entities remain.  For coils,
declaration order is strictly ascending address order. -/
theorem C3_next_behavior :
    (∀ c n : Nat, coilNext c 0 = [c] ∧
      (1 ≤ n → coilNext c n = (coilDecl.drop (coilIndex c + 1)).take n ∧
        (coilNext c n).length = min n (coilDecl.length - (coilIndex c + 1)))) ∧
    (∀ (ns : List Reg) (r : Reg) (n : Nat), regNext ns r 0 = [r] ∧
      (1 ≤ n → regNext ns r n = (ns.drop (regIndex ns r + 1)).take n ∧
        (regNext ns r n).length = min n (ns.length - (regIndex ns r + 1)))) ∧
    List.Pairwise (· < ·) coilDecl := by
  refine ⟨?_, ?_, by decide⟩
  · intro c n
    constructor
    · rfl
    · intro hn
      have hne : (n == 0) = false := by simp; omega
      constructor
      · simp [coilNext, hne]
      · simp [coilNext, hne, List.length_take, List.length_drop]
  · intro ns r n
    constructor
    · rfl
    · intro hn
      have hne : (n == 0) = false := by simp; omega
      constructor
      · simp [regNext, hne]
      · simp [regNext, hne, List.length_take, List.length_drop]

/-- C3 witness: the amended statement at the last declared coil with
`n = 1` — the returned slice is empty and its length is
`min 1 (remaining entities) = 0`. -/
theorem C3_witness :
    coilNext 0x58 1 = (coilDecl.drop (coilIndex 0x58 + 1)).take 1 ∧
      (coilNext 0x58 1).length = min 1 (coilDecl.length - (coilIndex 0x58 + 1)) :=
  (C3_next_behavior.1 0x58 1).2 (by decide)

/-- C6 counterexample: two registers with the same raw address but different
word widths (both constructible by `Register.__init__`) compare unequal
under `Register.__eq__`, although the claim says equality ignores width. -/
theorem C6_counterexample :
    regEq ⟨0x0001, 1⟩ ⟨0x0001, 2⟩ = false ∧
      (Reg.mk 0x0001 1).address = (Reg.mk 0x0001 2).address := by
  refine ⟨by decide, by decide⟩

/-- C6 (amended): `Register.__eq__` between two registers holds exactly when
both the raw address and the word width match (width is not ignored);
comparison of a register with a plain integer holds exactly when the integer
equals the raw address. -/
theorem C6_register_equality :
    (∀ a b : Reg, regEq a b = true ↔ b.address = a.address ∧ b.nWords = a.nWords) ∧
    (∀ (a : Reg) (n : Nat), regEqInt a n = true ↔ n = a.address) := by
  constructor
  · intro a b
    simp [regEq]
  · intro a n
    simp [regEqInt]

/-- C1: evaluating `read_registers` at a declared start register whose
computed word span exceeds 16.  From `MonitoringFunctions.OutputFrequency`
(0x1001, 2 words) with a request for 16 registers, the declared span is 24
words; the call does not fail with `BadParameterException` — the constructed
exception is never raised — and the request frame (requesting 24 data words,
byte 5 of the frame) is written to the transport before the empty read
surfaces as `NoResponseException`. -/
theorem C1_read_registers_span_overflow_sends :
    (regNext monitoringDecl ⟨0x1001, 2⟩ 15).getLast? = some ⟨0x1017, 2⟩ ∧
    (0x1017 - 0x1001 + 2 : Nat) = 24 ∧
    read_registers monitoringDecl ⟨1, 30, 0, 0, true, 9600, 0, 1⟩ 1 [] ⟨0x1001, 2⟩ 16 =
      (.error .noResponse, ⟨1, 30, 0, 1, true, 9600, 0, 1⟩,
       ⟨[sendFrame 1 0x03 [0x10, 0x00, 0, 24]], true, true⟩) := by
  refine ⟨by decide, by decide, by decide⟩

/-- C2: evaluating `read_fault_monitor` at the documented-valid input
`index = 6, field = Factor`: the six-entry bank list indexed at position 6
is out of range, so the call raises `IndexError` instead of querying bank 6;
moreover position 1 of the bank list holds `FaultMonitor2` (base 0x001C),
not the base of bank 1 (0x0012), so indices 1..5 select bank `index + 1`. -/
theorem C2_fault_monitor_bank_lookup_fails :
    read_fault_monitor ⟨1, 30, 0, 0, true, 9600, 0, 1⟩ 1 [] 6 0 =
      (.error .indexErr, ⟨1, 30, 0, 0, true, 9600, 0, 1⟩, Effects.empty) ∧
    faultMonitorBanks.length = 6 ∧
    faultMonitorBanks[1]? = some ⟨0x001C, 1⟩ ∧
    faultMonitorBanks[0]? = some ⟨0x0012, 1⟩ := by
  refine ⟨by decide, by decide, by decide, by decide⟩

/-- C4: evaluating the decode phase of `read_coil_status` on a length-valid,
CRC-valid response for the last declared coil (`GateSuppressMonitor`, 0x58)
with count 1: after pairing the first bit, the loop steps to
`addr.next()[0]` on an empty `next()` result and raises `IndexError`
instead of stopping at namespace exhaustion. -/
theorem C4_coil_decode_end_of_namespace_crash :
    read_coil_status ⟨1, 30, 0, 0, true, 9600, 0, 1⟩ 1 [1, 1, 1, 1, 0x90, 0x48] 0x58 1 =
      (.error .indexErr, ⟨1, 30, 0, 1, true, 9600, 0, 1⟩,
       ⟨[sendFrame 1 0x01 [0, 0x57, 0, 1]], true, true⟩) ∧
    crc16 [1, 1, 1, 1, 0x90, 0x48] = [0, 0] := by
  refine ⟨by decide, by decide⟩

/-- C5: evaluating the length check of `read_coil_status` for count 8 with
the protocol-correct 6-byte response (one bit-packed payload byte for 8
coils, CRC-valid): the source expects `6 + int(8 / 8) = 7` bytes and raises
`BadResponseLengthException` on the correct length `5 + ceil(8 / 8) = 6`. -/
theorem C5_length_check_rejects_exact_multiple :
    read_coil_status ⟨1, 30, 0, 0, true, 9600, 0, 1⟩ 1 [1, 1, 1, 0, 0x51, 0x88] 1 8 =
      (.error .badResponseLength, ⟨1, 30, 0, 1, true, 9600, 0, 1⟩,
       ⟨[sendFrame 1 0x01 [0, 0, 0, 8]], true, true⟩) ∧
    ([1, 1, 1, 0, 0x51, 0x88] : List Nat).length = 5 + (8 + 7) / 8 ∧
    crc16 [1, 1, 1, 0, 0x51, 0x88] = [0, 0] := by
  refine ⟨by decide, by decide, by decide⟩

/-- C7: evaluating `read_fault_monitor` on a time/frequency field
(`index = 1, field = Frequency`) with a well-formed device response: the
two-word combination `(result[0] << 16) + result[1]` raises `TypeError`,
because `RegisterValue.__lshift__` already returns a plain `int` and
`RegisterValue` defines no `__radd__` for `int + RegisterValue`; no plain
integer is ever returned. -/
theorem C7_fault_monitor_combine_type_error :
    read_fault_monitor ⟨1, 30, 0, 0, true, 9600, 0, 1⟩ 1
        [1, 3, 6, 0, 0, 0, 0, 0, 0, 0x21, 0x75] 1 2 =
      (.error .typeErr, ⟨1, 30, 0, 1, true, 9600, 0, 1⟩,
       ⟨[sendFrame 1 0x03 [0, 0x1D, 0, 3]], true, true⟩) ∧
    pyAdd (PyVal.int 0) (PyVal.regval ⟨0x0020, 1⟩ 0) = .error () := by
  refine ⟨by decide, by decide⟩

/-- State footprint of the read-exchange tail: the state is exactly the
post-send state and the effects record the one frame written. -/
theorem stateEvo_readExchange {α : Type} (s : EngineState) (t : ℚ)
    (resp frame : List Nat) (devId fc expectLen : Nat)
    (decode : List Nat → Except Err α) :
    SendTimestamped s t
      (readExchange { s with lastReqTime := t } resp frame devId fc expectLen decode) := by
  unfold readExchange SendTimestamped
  repeat' split
  all_goals exact Or.inr ⟨List.cons_ne_nil _ _, rfl⟩

/-- State footprint of the echo-exchange tail. -/
theorem stateEvo_echoExchange (s : EngineState) (t : ℚ)
    (resp frame : List Nat) (devId fc : Nat) (echo : List Nat) :
    SendTimestamped s t
      (echoExchange { s with lastReqTime := t } resp frame devId fc echo) := by
  unfold echoExchange SendTimestamped
  repeat' split
  all_goals exact Or.inr ⟨List.cons_ne_nil _ _, rfl⟩

/-- State footprint of `read_coil_status`. -/
theorem stateEvo_read_coil_status (s : EngineState) (t : ℚ) (resp : List Nat)
    (start count : Nat) : SendTimestamped s t (read_coil_status s t resp start count) := by
  unfold read_coil_status
  repeat' split
  all_goals first
    | exact stateEvo_readExchange s t resp _ _ _ _ _
    | exact Or.inl ⟨rfl, rfl⟩

/-- State footprint of `read_registers`. -/
theorem stateEvo_read_registers (ns : List Reg) (s : EngineState) (t : ℚ)
    (resp : List Nat) (start : Reg) (count : Nat) :
    SendTimestamped s t (read_registers ns s t resp start count) := by
  unfold read_registers
  repeat' split
  all_goals first
    | exact stateEvo_readExchange s t resp _ _ _ _ _
    | exact Or.inl ⟨rfl, rfl⟩

/-- State footprint of `read_registers` with a plain-integer start. -/
theorem stateEvo_read_registers_intstart (s : EngineState) (t : ℚ)
    (resp : List Nat) (start count : Nat) :
    SendTimestamped s t (read_registers_intstart s t resp start count) := by
  unfold read_registers_intstart
  repeat' split
  all_goals first
    | exact stateEvo_readExchange s t resp _ _ _ _ _
    | exact Or.inl ⟨rfl, rfl⟩

/-- State footprint of `write_in_coil`. -/
theorem stateEvo_write_in_coil (s : EngineState) (t : ℚ) (resp : List Nat)
    (addr : Nat) (state : Bool) :
    SendTimestamped s t (write_in_coil s t resp addr state) := by
  unfold write_in_coil
  repeat' split
  all_goals first
    | exact stateEvo_echoExchange s t resp _ _ _ _
    | exact Or.inl ⟨rfl, rfl⟩
    | exact Or.inr ⟨List.cons_ne_nil _ _, rfl⟩

/-- State footprint of `write_in_multiple_registers`. -/
theorem stateEvo_write_in_multiple_registers (ns : List Reg) (s : EngineState)
    (t : ℚ) (resp : List Nat) (start : Reg) (values : List Nat) :
    SendTimestamped s t (write_in_multiple_registers ns s t resp start values) := by
  unfold write_in_multiple_registers
  repeat' split
  all_goals first
    | exact stateEvo_echoExchange s t resp _ _ _ _
    | exact Or.inl ⟨rfl, rfl⟩
    | exact Or.inr ⟨List.cons_ne_nil _ _, rfl⟩

/-- State footprint of `write_in_register` (including the delegation to
`write_in_multiple_registers` for multi-word registers). -/
theorem stateEvo_write_in_register (ns : List Reg) (s : EngineState) (t : ℚ)
    (resp : List Nat) (addr : Reg) (value : Nat) :
    SendTimestamped s t (write_in_register ns s t resp addr value) := by
  unfold write_in_register
  repeat' split
  all_goals first
    | exact stateEvo_write_in_multiple_registers ns s t resp addr [value]
    | exact stateEvo_echoExchange s t resp _ _ _ _
    | exact Or.inl ⟨rfl, rfl⟩
    | exact Or.inr ⟨List.cons_ne_nil _ _, rfl⟩

/-- State footprint of `write_in_multiple_coils`. -/
theorem stateEvo_write_in_multiple_coils (s : EngineState) (t : ℚ)
    (resp : List Nat) (start : Nat) (values : List Bool) :
    SendTimestamped s t (write_in_multiple_coils s t resp start values) := by
  unfold write_in_multiple_coils
  repeat' split
  all_goals first
    | exact stateEvo_echoExchange s t resp _ _ _ _
    | exact Or.inl ⟨rfl, rfl⟩
    | exact Or.inr ⟨List.cons_ne_nil _ _, rfl⟩

/-- State footprint of `loopback_test`. -/
theorem stateEvo_loopback_test (s : EngineState) (t : ℚ) (resp : List Nat)
    (tms : Nat) : SendTimestamped s t (loopback_test s t resp tms) := by
  unfold loopback_test
  repeat' split
  all_goals first
    | exact stateEvo_echoExchange s t resp _ _ _ _
    | exact Or.inl ⟨rfl, rfl⟩

/-- State footprint of `read_and_write_registers`. -/
theorem stateEvo_read_and_write_registers (ns : List Reg) (s : EngineState)
    (t : ℚ) (resp : List Nat) (readStart writeStart : Reg) (readCount : Nat)
    (writeValues : List Nat) :
    SendTimestamped s t
      (read_and_write_registers ns s t resp readStart writeStart readCount writeValues) := by
  unfold read_and_write_registers
  repeat' split
  all_goals first
    | exact stateEvo_readExchange s t resp _ _ _ _ _
    | exact Or.inl ⟨rfl, rfl⟩

/-- State footprint of `read_fault_monitor` (via the footprints of the two
`read_registers` variants it delegates to). -/
theorem stateEvo_read_fault_monitor (s : EngineState) (t : ℚ) (resp : List Nat)
    (index value : Nat) :
    SendTimestamped s t (read_fault_monitor s t resp index value) := by
  unfold read_fault_monitor
  repeat' split
  all_goals first
    | exact Or.inl ⟨rfl, rfl⟩
    | exact SendTimestamped.andThenEvo (stateEvo_read_registers_intstart s t resp _ _) _
    | exact SendTimestamped.andThenEvo (stateEvo_read_registers monitoringDecl s t resp _ _) _

/-- C9: with a broadcast device id (250..254), every read operation and the
loopback test fail with `BadRequestException` before any I/O (no frame
written, no wait, no read, state untouched), while every write operation
with valid arguments and an open port writes exactly its one request frame
and returns successfully without waiting out the quiet period and without
attempting a read. -/
theorem C9_broadcast_behavior :
    (∀ (s : EngineState) (t : ℚ) (resp : List Nat) (start count : Nat),
      250 ≤ s.devId → s.devId ≤ 254 →
      read_coil_status s t resp start count = (.error .badRequest, s, Effects.empty)) ∧
    (∀ (ns : List Reg) (s : EngineState) (t : ℚ) (resp : List Nat) (start : Reg) (count : Nat),
      250 ≤ s.devId → s.devId ≤ 254 →
      read_registers ns s t resp start count = (.error .badRequest, s, Effects.empty)) ∧
    (∀ (s : EngineState) (t : ℚ) (resp : List Nat) (start count : Nat),
      250 ≤ s.devId → s.devId ≤ 254 →
      read_registers_intstart s t resp start count = (.error .badRequest, s, Effects.empty)) ∧
    (∀ (ns : List Reg) (s : EngineState) (t : ℚ) (resp : List Nat) (rs ws : Reg)
       (rc : Nat) (wv : List Nat), 250 ≤ s.devId → s.devId ≤ 254 →
      read_and_write_registers ns s t resp rs ws rc wv = (.error .badRequest, s, Effects.empty)) ∧
    (∀ (s : EngineState) (t : ℚ) (resp : List Nat) (tms : Nat),
      250 ≤ s.devId → s.devId ≤ 254 →
      loopback_test s t resp tms = (.error .badRequest, s, Effects.empty)) ∧
    (∀ (s : EngineState) (t : ℚ) (resp : List Nat) (addr : Nat) (st : Bool),
      250 ≤ s.devId → s.devId ≤ 254 → s.serOpen = true → 1 ≤ addr → addr ≤ 0x58 →
      write_in_coil s t resp addr st =
        (.ok (), { s with lastReqTime := t },
         ⟨[sendFrame s.devId 0x05 (writeCoilMsg addr st)], false, false⟩)) ∧
    (∀ (ns : List Reg) (s : EngineState) (t : ℚ) (resp : List Nat) (addr : Reg) (v : Nat),
      250 ≤ s.devId → s.devId ≤ 254 → s.serOpen = true →
      1 ≤ addr.address → addr.address ≤ 0xffff → addr.nWords = 1 → v ≤ 0xffff →
      write_in_register ns s t resp addr v =
        (.ok (), { s with lastReqTime := t },
         ⟨[sendFrame s.devId 0x06 (writeRegMsg addr v)], false, false⟩)) ∧
    (∀ (s : EngineState) (t : ℚ) (resp : List Nat) (start : Nat) (vs : List Bool),
      250 ≤ s.devId → s.devId ≤ 254 → s.serOpen = true → 1 ≤ start → start ≤ 0x58 →
      1 ≤ vs.length → vs.length ≤ 31 →
      write_in_multiple_coils s t resp start vs =
        (.ok (), { s with lastReqTime := t },
         ⟨[sendFrame s.devId 0x0F (multiCoilsMsg start vs)], false, false⟩)) ∧
    (∀ (ns : List Reg) (s : EngineState) (t : ℚ) (resp : List Nat) (start : Reg)
       (vs : List Nat) (last : Reg) (body : List Nat),
      250 ≤ s.devId → s.devId ≤ 254 → s.serOpen = true →
      1 ≤ start.address → start.address ≤ 0xffff → 1 ≤ vs.length → vs.length ≤ 16 →
      (regNext ns start (vs.length - 1)).getLast? = some last →
      0 ≤ spanOf start last → spanOf start last ≤ 16 →
      prepareForWriting ns start vs = .ok body →
      write_in_multiple_registers ns s t resp start vs =
        (.ok (), { s with lastReqTime := t },
         ⟨[sendFrame s.devId 0x10 (multiRegsHeader start (spanOf start last).toNat ++ body)],
          false, false⟩)) := by
  refine ⟨?_, ?_, ?_, ?_, ?_, ?_, ?_, ?_, ?_⟩
  · intro s t resp start count h250 _
    unfold read_coil_status
    rw [if_pos (by omega)]
  · intro ns s t resp start count h250 _
    unfold read_registers
    rw [if_pos (by omega)]
  · intro s t resp start count h250 _
    unfold read_registers_intstart
    rw [if_pos (by omega)]
  · intro ns s t resp rs ws rc wv h250 _
    unfold read_and_write_registers
    rw [if_pos (by omega)]
  · intro s t resp tms h250 _
    unfold loopback_test
    rw [if_pos (by omega)]
  · intro s t resp addr st h250 _ hopen ha1 ha2
    unfold write_in_coil
    rw [if_neg (by omega), if_neg (by simp [hopen]), if_pos (by omega)]
  · intro ns s t resp addr v h250 _ hopen ha1 ha2 hw hv
    unfold write_in_register
    rw [if_neg (by omega), if_neg (by omega), if_neg (by omega),
      if_neg (by simp [hopen]), if_pos (by omega)]
  · intro s t resp start vs h250 _ hopen ha1 ha2 hl1 hl2
    unfold write_in_multiple_coils
    rw [if_neg (by omega), if_neg (by omega), if_neg (by simp [hopen]), if_pos (by omega)]
  · intro ns s t resp start vs last body h250 _ hopen ha1 ha2 hl1 hl2 hlast hs0 hs16 hprep
    unfold write_in_multiple_registers
    rw [if_neg (by omega), if_neg (by omega)]
    simp only [hlast]
    rw [if_neg (by omega), if_neg (by omega)]
    simp only [hprep]
    rw [if_neg (by simp [hopen]), if_pos (by omega)]

/-- C9 witness: concrete broadcast engine state (device id 250, open port),
exercising every conjunct: the four read forms and the loopback test reject,
the four write forms send one frame and return with no wait and no read. -/
theorem C9_witness :
    read_coil_status ⟨250, 30, 0, 0, true, 9600, 0, 1⟩ 1 [] 1 1 =
      (.error .badRequest, ⟨250, 30, 0, 0, true, 9600, 0, 1⟩, Effects.empty) ∧
    read_registers monitoringDecl ⟨250, 30, 0, 0, true, 9600, 0, 1⟩ 1 [] ⟨0x1001, 2⟩ 1 =
      (.error .badRequest, ⟨250, 30, 0, 0, true, 9600, 0, 1⟩, Effects.empty) ∧
    read_registers_intstart ⟨250, 30, 0, 0, true, 9600, 0, 1⟩ 1 [] 1 1 =
      (.error .badRequest, ⟨250, 30, 0, 0, true, 9600, 0, 1⟩, Effects.empty) ∧
    read_and_write_registers monitoringDecl ⟨250, 30, 0, 0, true, 9600, 0, 1⟩ 1 []
        ⟨0x1001, 2⟩ ⟨0x1001, 2⟩ 1 [0] =
      (.error .badRequest, ⟨250, 30, 0, 0, true, 9600, 0, 1⟩, Effects.empty) ∧
    loopback_test ⟨250, 30, 0, 0, true, 9600, 0, 1⟩ 1 [] 0 =
      (.error .badRequest, ⟨250, 30, 0, 0, true, 9600, 0, 1⟩, Effects.empty) ∧
    write_in_coil ⟨250, 30, 0, 0, true, 9600, 0, 1⟩ 1 [] 1 true =
      (.ok (), ⟨250, 30, 0, 1, true, 9600, 0, 1⟩,
       ⟨[sendFrame 250 0x05 (writeCoilMsg 1 true)], false, false⟩) ∧
    write_in_register monitoringDecl ⟨250, 30, 0, 0, true, 9600, 0, 1⟩ 1 [] ⟨0x1003, 1⟩ 5 =
      (.ok (), ⟨250, 30, 0, 1, true, 9600, 0, 1⟩,
       ⟨[sendFrame 250 0x06 (writeRegMsg ⟨0x1003, 1⟩ 5)], false, false⟩) ∧
    write_in_multiple_coils ⟨250, 30, 0, 0, true, 9600, 0, 1⟩ 1 [] 1 [true] =
      (.ok (), ⟨250, 30, 0, 1, true, 9600, 0, 1⟩,
       ⟨[sendFrame 250 0x0F (multiCoilsMsg 1 [true])], false, false⟩) ∧
    write_in_multiple_registers monitoringDecl ⟨250, 30, 0, 0, true, 9600, 0, 1⟩ 1 []
        ⟨0x1003, 1⟩ [7] =
      (.ok (), ⟨250, 30, 0, 1, true, 9600, 0, 1⟩,
       ⟨[sendFrame 250 0x10
           (multiRegsHeader ⟨0x1003, 1⟩ (spanOf ⟨0x1003, 1⟩ ⟨0x1003, 1⟩).toNat ++ [0, 7])],
        false, false⟩) := by
  have h := C9_broadcast_behavior
  refine ⟨h.1 _ _ _ _ _ (by decide) (by decide),
          h.2.1 _ _ _ _ _ _ (by decide) (by decide),
          h.2.2.1 _ _ _ _ _ (by decide) (by decide),
          h.2.2.2.1 _ _ _ _ _ _ _ _ (by decide) (by decide),
          h.2.2.2.2.1 _ _ _ _ (by decide) (by decide),
          h.2.2.2.2.2.1 _ _ _ _ _ (by decide) (by decide) (by decide) (by decide) (by decide),
          h.2.2.2.2.2.2.1 _ _ _ _ _ _ (by decide) (by decide) (by decide) (by decide)
            (by decide) (by decide) (by decide),
          h.2.2.2.2.2.2.2.1 _ _ _ _ _ (by decide) (by decide) (by decide) (by decide)
            (by decide) (by decide) (by decide),
          h.2.2.2.2.2.2.2.2 _ _ _ _ _ _ ⟨0x1003, 1⟩ [0, 7] (by decide) (by decide) (by decide)
            (by decide) (by decide) (by decide) (by decide) (by decide) (by decide) (by decide)
            (by decide)⟩

/-- C10: every public read/write/loopback operation leaves the engine's
configuration (device id, latency time, computed wait time, serial settings)
unchanged whether it returns or raises; the only engine field any such
operation can modify is the last-request timestamp, which is set to the send
time exactly when a frame is written (the `_send` step). -/
theorem C10_state_evolution :
    (∀ (s : EngineState) (t : ℚ) (resp : List Nat) (start count : Nat),
      SendTimestamped s t (read_coil_status s t resp start count)) ∧
    (∀ (ns : List Reg) (s : EngineState) (t : ℚ) (resp : List Nat) (start : Reg) (count : Nat),
      SendTimestamped s t (read_registers ns s t resp start count)) ∧
    (∀ (s : EngineState) (t : ℚ) (resp : List Nat) (start count : Nat),
      SendTimestamped s t (read_registers_intstart s t resp start count)) ∧
    (∀ (ns : List Reg) (s : EngineState) (t : ℚ) (resp : List Nat) (rs ws : Reg)
       (rc : Nat) (wv : List Nat),
      SendTimestamped s t (read_and_write_registers ns s t resp rs ws rc wv)) ∧
    (∀ (s : EngineState) (t : ℚ) (resp : List Nat) (tms : Nat),
      SendTimestamped s t (loopback_test s t resp tms)) ∧
    (∀ (s : EngineState) (t : ℚ) (resp : List Nat) (addr : Nat) (st : Bool),
      SendTimestamped s t (write_in_coil s t resp addr st)) ∧
    (∀ (ns : List Reg) (s : EngineState) (t : ℚ) (resp : List Nat) (addr : Reg) (v : Nat),
      SendTimestamped s t (write_in_register ns s t resp addr v)) ∧
    (∀ (s : EngineState) (t : ℚ) (resp : List Nat) (start : Nat) (vs : List Bool),
      SendTimestamped s t (write_in_multiple_coils s t resp start vs)) ∧
    (∀ (ns : List Reg) (s : EngineState) (t : ℚ) (resp : List Nat) (start : Reg)
       (vs : List Nat),
      SendTimestamped s t (write_in_multiple_registers ns s t resp start vs)) ∧
    (∀ (s : EngineState) (t : ℚ) (resp : List Nat) (index value : Nat),
      SendTimestamped s t (read_fault_monitor s t resp index value)) :=
  ⟨stateEvo_read_coil_status,
   stateEvo_read_registers,
   stateEvo_read_registers_intstart,
   stateEvo_read_and_write_registers,
   stateEvo_loopback_test,
   stateEvo_write_in_coil,
   stateEvo_write_in_register,
   stateEvo_write_in_multiple_coils,
   stateEvo_write_in_multiple_registers,
   stateEvo_read_fault_monitor⟩

end MX2
